import Mathlib

/-!
Verification of the Wholesale-Shop-Management back office (src/app.py)
against its natural-language specification.

The development shallowly embeds the parts of `src/app.py` that the claims
are about: the `check_permissions` role gate (lines 64-76), the
`execute_query` persistence gateway (lines 108-158), the table rows it
manipulates, the order-wizard cart logic (lines 734-759), the step-2
product query (line 695) and the "Create Complete Order" commit
(lines 931-1016).

Modelling conventions:
  * Table rows are structures holding the columns of the `TABLES`
    configuration (lines 343-394); store-assigned identifiers are
    modelled by a `next_id` counter on the store.
  * Money amounts are `Int` (the Python code uses floats, but every
    operation the claims touch is an addition, subtraction or
    multiplication of exactly-representable values, so the arithmetic
    agrees).  Stock is `Int` so that a negative write is expressible.
  * A raised exception inside a database call is modelled as an
    `Except.error`; `execute_query`'s `try`/`except` envelope turns it
    into the empty list (lines 156-158).
  * Supabase calls that may fail during one commit are driven by a
    `FailSpec` saying which of them raise.
-/

namespace Shop

/-- A row of `customers` (only the columns the wizard reads). -/
structure Customer where
  customer_id : Nat
  name : String
  deriving DecidableEq, Repr

/-- A row of `employees` (only the columns the wizard reads). -/
structure Employee where
  employee_id : Nat
  name : String
  deriving DecidableEq, Repr

/-- A row of `products` per `TABLES["products"]` (lines 356-361). -/
structure Product where
  product_id : Nat
  name : String
  category : String
  unit_price : Int
  stock_quantity : Int
  supplier_id : Nat
  deriving DecidableEq, Repr

/-- A row of `orders` per `TABLES["orders"]` (lines 368-373). -/
structure OrderRow where
  order_id : Nat
  customer_id : Nat
  employee_id : Nat
  order_date : String
  status : String
  deriving DecidableEq, Repr

/-- A row of `order_items` per `TABLES["order_items"]` (lines 374-379). -/
structure OrderItemRow where
  order_item_id : Nat
  order_id : Nat
  product_id : Nat
  quantity : Nat
  price : Int
  deriving DecidableEq, Repr

/-- A row of `payments` per `TABLES["payments"]` (lines 380-385). -/
structure PaymentRow where
  payment_id : Nat
  order_id : Nat
  payment_date : String
  amount : Int
  payment_mode : String
  deriving DecidableEq, Repr

/-- A row of `transportation` per `TABLES["transportation"]` (386-393). -/
structure TransportRow where
  transport_id : Nat
  order_id : Nat
  vehicle_number : String
  driver_name : String
  transport_mode : String
  departure_date : String
  arrival_date : String
  status : String
  deriving DecidableEq, Repr

/-- The backing store: one list of rows per table the wizard touches,
plus the counter handing out store-assigned identifiers. -/
structure Store where
  customers : List Customer
  employees : List Employee
  products : List Product
  orders : List OrderRow
  order_items : List OrderItemRow
  payments : List PaymentRow
  transportation : List TransportRow
  next_id : Nat
  deriving DecidableEq, Repr

/-- Models `check_permissions` (lines 64-76).  The session user is
`Option String` carrying the logged-in user's role (`none` when no
`user` key is in the session), and `required_role` is `Option String`
(`none` for the Python default `None`). -/
def check_permissions (userRole : Option String) (required_role : Option String) : Bool :=
  match userRole with
  | none => false
  | some role =>
    match required_role with
    | none => true
    | some r => if r = "Manager" ∧ role ≠ "Manager" then false else true

/-- Models `execute_query`'s exception envelope (lines 108-158): the whole
operation runs inside one `try`; any raised error is written to the UI with
`st.error` and the function returns the empty list, so a caller receives
`[]` both for a failed operation and for a successful query over zero
matching rows. -/
def execute_query {α : Type} (result : Except String (List α)) : List α :=
  match result with
  | Except.ok rows => rows
  | Except.error _ => []

/-- The `select` branch of `execute_query` on the products table: the
optional `eq` filter on `stock_quantity` is applied first, then the
optional `neq` filter, the filters composing conjunctively
(lines 111-134). -/
def selectProducts (store : Store) (eqStock : Option Int) (neqStock : Option Int) :
    List Product :=
  let rows := store.products
  let rows1 := match eqStock with
    | some v => rows.filter (fun p => p.stock_quantity == v)
    | none => rows
  match neqStock with
  | some v => rows1.filter (fun p => p.stock_quantity != v)
  | none => rows1

/-- The wizard step-2 product query exactly as line 695 issues it:
`execute_query("products", eq={"stock_quantity": 0}, neq={"stock_quantity": 0})`. -/
def wizardStep2Products (store : Store) : List Product :=
  selectProducts store (some 0) (some 0)

/-- Step 2's guard (lines 697-699): with an empty product list the page
shows "No products available with stock" and returns. -/
def step2Blocked (store : Store) : Bool :=
  (wizardStep2Products store).isEmpty

/-- One line of the wizard cart (lines 748-754). -/
structure CartItem where
  product_id : Nat
  name : String
  quantity : Nat
  unit_price : Int
  line_total : Int
  deriving DecidableEq, Repr

/-- The result of the add-to-cart handler: the new cart, or the
"Only {max_qty} units available in stock!" rejection (line 759). -/
inductive AddResult where
  | ok (cart : List CartItem)
  | exceedsStock (available : Int)
  deriving DecidableEq, Repr

/-- Update the first cart entry for `pid` the way lines 743-744 mutate the
entry found by `next(...)`: quantity increased by the added quantity, line
total recomputed from the new quantity and the entry's stored unit price. -/
def bumpFirst (cart : List CartItem) (pid : Nat) (quantity : Nat) : List CartItem :=
  match cart with
  | [] => []
  | item :: rest =>
    if item.product_id = pid then
      { item with
        quantity := item.quantity + quantity,
        line_total := ((item.quantity + quantity : Nat) : Int) * item.unit_price } :: rest
    else
      item :: bumpFirst rest pid quantity

/-- The updated entry lines 743-744 produce: quantity increased by the
added quantity, line total recomputed as new quantity times the entry's
stored unit price. -/
def bumpItem (e : CartItem) (q : Nat) : CartItem :=
  { e with
    quantity := e.quantity + q,
    line_total := ((e.quantity + q : Nat) : Int) * e.unit_price }

/-- The add-to-cart handler (lines 734-759): reject when the added quantity
alone exceeds the product's current stock; otherwise merge into the
existing entry for the same `product_id` when there is one, else append a
fresh entry priced at the (editable) unit price from the form. -/
def addToCart (cart : List CartItem) (product : Product) (quantity : Nat) (price : Int) :
    AddResult :=
  let max_qty := product.stock_quantity
  if (quantity : Int) ≤ max_qty then
    if cart.any (fun item => item.product_id == product.product_id) then
      AddResult.ok (bumpFirst cart product.product_id quantity)
    else
      AddResult.ok (cart ++
        [{ product_id := product.product_id, name := product.name,
           quantity := quantity, unit_price := price,
           line_total := (quantity : Int) * price }])
  else
    AddResult.exceedsStock max_qty

/-- Step-1 capture (lines 671-678). -/
structure OrderInfo where
  customer_id : Nat
  employee_id : Nat
  order_date : String
  status : String
  deriving DecidableEq, Repr

/-- Step-3 capture (lines 829-840): either a recorded payment or the
explicit skip (`make_payment = false`). -/
structure PaymentInfo where
  make_payment : Bool
  pay_date : String
  pay_amount : Int
  pay_mode : String
  deriving DecidableEq, Repr

/-- Step-4 capture (lines 881-895): transport fields or the explicit skip
(`add_transport = false`). -/
structure TransportInfo where
  add_transport : Bool
  vehicle_number : String
  driver_name : String
  transport_mode : String
  departure_date : String
  arrival_date : String
  t_status : String
  deriving DecidableEq, Repr

/-- Which underlying Supabase calls of one commit raise.  `execute_query`
catches every raise and hands back `[]` (lines 156-158); a raise during an
insert or update writes nothing.  Item-level fields name the 0-based cart
positions whose call fails. -/
structure FailSpec where
  order_insert : Bool
  item_insert : List Nat
  product_select : List Nat
  stock_update : List Nat
  payment_insert : Bool
  transport_insert : Bool
  deriving DecidableEq, Repr

/-- The failure-free schedule: every call succeeds. -/
def noFail : FailSpec :=
  { order_insert := false, item_insert := [], product_select := [],
    stock_update := [], payment_insert := false, transport_insert := false }

/-- The `update` branch of `execute_query` on `products` with
`eq={"product_id": pid}` (lines 140-146, called at lines 959-961): every
row matching the filter receives the new `stock_quantity`. -/
def updateStock (products : List Product) (pid : Nat) (newStock : Int) : List Product :=
  products.map (fun p =>
    if p.product_id = pid then { p with stock_quantity := newStock } else p)

/-- Step 2 of the commit (lines 946-961), one iteration per cart item, in
cart order: insert the OrderItem row (its result is unused by the code),
re-select the product by id, compute `new_stock = current - quantity` and
write it back — with no availability check and no compensation.  A failed
insert or a failed stock update is swallowed (`execute_query` returns `[]`)
and the loop just continues; a failed product select returns `[]`, so the
`[0]` subscript raises and the outer `except` (line 1014) aborts the loop
keeping everything already written.  Returns the store after the loop and
whether the loop ran to completion. -/
def commitItems (fs : FailSpec) (oid : Nat) : Nat → Store → List CartItem → Store × Bool
  | _, store, [] => (store, true)
  | idx, store, item :: rest =>
    let store1 :=
      if fs.item_insert.contains idx then store
      else { store with
        order_items := store.order_items ++
          [{ order_item_id := store.next_id, order_id := oid,
             product_id := item.product_id, quantity := item.quantity,
             price := item.line_total }],
        next_id := store.next_id + 1 }
    if fs.product_select.contains idx then (store1, false)
    else
      match store1.products.find? (fun p => p.product_id == item.product_id) with
      | none => (store1, false)
      | some p =>
        let new_stock := p.stock_quantity - (item.quantity : Int)
        let store2 :=
          if fs.stock_update.contains idx then store1
          else { store1 with
            products := updateStock store1.products item.product_id new_stock }
        commitItems fs oid (idx + 1) store2 rest

/-- The outcome of the "Create Complete Order" handler: the store after
all writes, whether the success banner was shown, and the order id the
insert returned. -/
structure CommitResult where
  store : Store
  ok : Bool
  order_id : Option Nat
  deriving DecidableEq, Repr

/-- The "Create Complete Order" handler (lines 931-1016): insert the Order
from the step-1 capture; when a row came back, run the item loop, then
insert the Payment when one was recorded with a positive amount
(line 964) and the Transportation when chosen with non-empty vehicle
number and driver name (lines 975-977).  `ok = false` covers both the
empty-order-result branch (line 1011) and the outer `except` (line 1014);
no branch deletes or reverts anything already written. -/
def commitOrder (fs : FailSpec) (store : Store) (info : OrderInfo)
    (cart : List CartItem) (pay : PaymentInfo) (transport : TransportInfo) :
    CommitResult :=
  if fs.order_insert then { store := store, ok := false, order_id := none }
  else
    let oid := store.next_id
    let store1 := { store with
      orders := store.orders ++
        [{ order_id := oid, customer_id := info.customer_id,
           employee_id := info.employee_id, order_date := info.order_date,
           status := info.status }],
      next_id := store.next_id + 1 }
    match commitItems fs oid 0 store1 cart with
    | (store2, false) => { store := store2, ok := false, order_id := some oid }
    | (store2, true) =>
      let store3 :=
        if pay.make_payment ∧ 0 < pay.pay_amount ∧ ¬fs.payment_insert then
          { store2 with
            payments := store2.payments ++
              [{ payment_id := store2.next_id, order_id := oid,
                 payment_date := pay.pay_date, amount := pay.pay_amount,
                 payment_mode := pay.pay_mode }],
            next_id := store2.next_id + 1 }
        else store2
      let store4 :=
        if transport.add_transport ∧ transport.vehicle_number ≠ "" ∧
            transport.driver_name ≠ "" ∧ ¬fs.transport_insert then
          { store3 with
            transportation := store3.transportation ++
              [{ transport_id := store3.next_id, order_id := oid,
                 vehicle_number := transport.vehicle_number,
                 driver_name := transport.driver_name,
                 transport_mode := transport.transport_mode,
                 departure_date := transport.departure_date,
                 arrival_date := transport.arrival_date,
                 status := transport.t_status }],
            next_id := store3.next_id + 1 }
        else store3
      { store := store4, ok := true, order_id := some oid }

/-- The wizard's session keys (lines 631-634 and the step-local
initializers): `none` models a key absent from `st.session_state`. -/
structure WizardSession where
  wizard_step : Nat
  order_info : Option OrderInfo
  cart : List CartItem
  payment_info : Option PaymentInfo
  transport_info : Option TransportInfo
  deriving DecidableEq, Repr

/-- The session as the page re-initializes it: step 1, no captures, empty
cart. -/
def freshSession : WizardSession :=
  { wizard_step := 1, order_info := none, cart := [],
    payment_info := none, transport_info := none }

/-- The step-5 "Create Complete Order" button: runs the commit against the
store and leaves every session key untouched — the code that clears them
(lines 1003-1007) sits behind the separate "Create Another Order" button.
Returns (store, session, success banner shown). -/
def createCompleteOrderClick (fs : FailSpec) (store : Store) (sess : WizardSession) :
    Store × WizardSession × Bool :=
  match sess.order_info, sess.payment_info, sess.transport_info with
  | some info, some pay, some transport =>
    let r := commitOrder fs store info sess.cart pay transport
    (r.store, sess, r.ok)
  | _, _, _ => (store, sess, false)

/-- The "Create Another Order" button (lines 1003-1007): deletes
`wizard_step`, `order_info`, `cart`, `payment_info` and `transport_info`,
which the page then re-initializes to the fresh step-1 state. -/
def createAnotherOrderClick (_sess : WizardSession) : WizardSession :=
  freshSession

/-! ## Concrete fixtures used by the claim theorems -/

/-- Customer C1 of the spec's §8 scenario. -/
def c1Cust : Customer := { customer_id := 1, name := "C1" }

/-- Employee E1 of the spec's §8 scenario. -/
def e1Emp : Employee := { employee_id := 1, name := "E1" }

/-- Product P1 of the spec's §8 scenario: stock 10, unit price 50. -/
def p1 : Product :=
  { product_id := 1, name := "P1", category := "General", unit_price := 50,
    stock_quantity := 10, supplier_id := 1 }

/-- The §8 scenario store: C1, E1 and P1 exist, nothing else. -/
def baseStore : Store :=
  { customers := [c1Cust], employees := [e1Emp], products := [p1], orders := [],
    order_items := [], payments := [], transportation := [], next_id := 101 }

/-- A step-1 capture selecting C1 and E1. -/
def infoC8 : OrderInfo :=
  { customer_id := 1, employee_id := 1, order_date := "2026-10-12", status := "Pending" }

/-- Step-3 capture with payment explicitly skipped. -/
def paySkip : PaymentInfo :=
  { make_payment := false, pay_date := "2026-10-12", pay_amount := 0, pay_mode := "Cash" }

/-- Step-4 capture with transportation explicitly skipped. -/
def transportSkip : TransportInfo :=
  { add_transport := false, vehicle_number := "", driver_name := "",
    transport_mode := "Truck", departure_date := "2026-10-12",
    arrival_date := "2026-10-13", t_status := "In Transit" }

/-- A second product for the two-item commit. -/
def p2 : Product :=
  { product_id := 2, name := "P2", category := "General", unit_price := 30,
    stock_quantity := 8, supplier_id := 1 }

/-- Store holding P1 (stock 10) and P2 (stock 8). -/
def storeTwo : Store :=
  { customers := [c1Cust], employees := [e1Emp], products := [p1, p2], orders := [],
    order_items := [], payments := [], transportation := [], next_id := 201 }

/-- Cart with one line for P1 (quantity 3) and one for P2 (quantity 2). -/
def cartTwo : List CartItem :=
  [⟨1, "P1", 3, 50, 150⟩, ⟨2, "P2", 2, 30, 60⟩]

/-- Failure schedule where the `order_items` insert of the second cart
item (position 1) raises. -/
def failSecondItem : FailSpec :=
  { order_insert := false, item_insert := [1], product_select := [],
    stock_update := [], payment_insert := false, transport_insert := false }

/-- Product P3 with a single unit in stock. -/
def pLast : Product :=
  { product_id := 3, name := "P3", category := "General", unit_price := 20,
    stock_quantity := 1, supplier_id := 1 }

/-- Store holding only P3 (stock 1). -/
def storeLast : Store :=
  { customers := [c1Cust], employees := [e1Emp], products := [pLast], orders := [],
    order_items := [], payments := [], transportation := [], next_id := 301 }

/-- Product P4 with a single unit in stock, for the commit-time deduction. -/
def p4 : Product :=
  { product_id := 4, name := "P4", category := "General", unit_price := 10,
    stock_quantity := 1, supplier_id := 1 }

/-- Store holding only P4 (stock 1). -/
def storeOne : Store :=
  { customers := [c1Cust], employees := [e1Emp], products := [p4], orders := [],
    order_items := [], payments := [], transportation := [], next_id := 401 }

/-- Product P6 with five units in stock, for the cart-merge stock check. -/
def p6 : Product :=
  { product_id := 6, name := "P6", category := "General", unit_price := 10,
    stock_quantity := 5, supplier_id := 1 }

/-- Store whose only product, P6, has positive stock. -/
def storeWithStock : Store :=
  { customers := [c1Cust], employees := [e1Emp], products := [p6], orders := [],
    order_items := [], payments := [], transportation := [], next_id := 601 }

/-- A session sitting at step 5 with captures for every prior step and one
item in the cart. -/
def sessAtStep5 : WizardSession :=
  { wizard_step := 5, order_info := some infoC8, cart := [⟨1, "P1", 3, 50, 150⟩],
    payment_info := some paySkip, transport_info := some transportSkip }

/-- Product P5 with nine units in stock, for the cart-merge witness. -/
def p5w : Product :=
  { product_id := 5, name := "P5", category := "General", unit_price := 40,
    stock_quantity := 9, supplier_id := 1 }

/-- A cart line for P4 requesting five units. -/
def itemC3 : CartItem := ⟨4, "P4", 5, 10, 50⟩

/-! ## Helper lemmas -/

/-- Filtering first for `stock_quantity == 0` and then for
`stock_quantity != 0` leaves nothing: the two filters compose
conjunctively and no row satisfies both. -/
theorem filter_stock_eq_then_neq (l : List Product) :
    (l.filter (fun p => p.stock_quantity == (0 : Int))).filter
      (fun p => p.stock_quantity != (0 : Int)) = [] := by
  induction l with
  | nil => rfl
  | cons a t ih =>
    by_cases h : a.stock_quantity = 0
    · simp [List.filter_cons, h, ih]
    · simp [List.filter_cons, h, ih]

/-- `bumpFirst` on a cart whose unique entry for `pid` is `e` replaces
exactly that entry with its bumped version. -/
theorem bumpFirst_append (l1 l2 : List CartItem) (e : CartItem) (pid : Nat) (q : Nat)
    (h1 : ∀ x ∈ l1, x.product_id ≠ pid) (he : e.product_id = pid) :
    bumpFirst (l1 ++ e :: l2) pid q = l1 ++ bumpItem e q :: l2 := by
  induction l1 with
  | nil => simp [bumpFirst, bumpItem, he]
  | cons a t ih =>
    have ha : a.product_id ≠ pid := h1 a (by simp)
    simp [bumpFirst, ha, ih (fun x hx => h1 x (by simp [hx]))]

/-! ## Claim theorems -/

/-- C1: the claim says a commit whose OrderItem insert fails after the
Order row exists must leave either all artifacts of the order or zero.
Evaluating the embedded commit at the failing input: the order_items
insert of the second of two cart items raises, yet the store is left with
the Order row, the first OrderItem only, and both stock deductions — a
partial artifact set — and the handler still reports success. -/
theorem commit_partial_artifacts_c1 :
    (commitOrder failSecondItem storeTwo infoC8 cartTwo paySkip transportSkip).ok = true ∧
    ((commitOrder failSecondItem storeTwo infoC8 cartTwo paySkip
        transportSkip).store.orders.map (fun o => o.order_id)) = [201] ∧
    ((commitOrder failSecondItem storeTwo infoC8 cartTwo paySkip
        transportSkip).store.order_items.map (fun i => i.product_id)) = [1] ∧
    ((commitOrder failSecondItem storeTwo infoC8 cartTwo paySkip
        transportSkip).store.products.map (fun p => p.stock_quantity)) = [7, 6] ∧
    cartTwo.length = 2 := by
  decide

/-- C2: the claim says `stock_quantity ≥ 0` in every reachable state and
that each core operation preserves it.  Evaluating the code: with P3 at
stock 1, adding quantity 1 to the cart twice passes the add-time check
both times (each add compares only the added quantity with stock), and the
commit then writes `1 - 2 = -1` into `stock_quantity`. -/
theorem stock_goes_negative_c2 :
    addToCart [] pLast 1 20 = AddResult.ok [⟨3, "P3", 1, 20, 20⟩] ∧
    addToCart [⟨3, "P3", 1, 20, 20⟩] pLast 1 20 = AddResult.ok [⟨3, "P3", 2, 20, 40⟩] ∧
    (commitOrder noFail storeLast infoC8 [⟨3, "P3", 2, 20, 40⟩] paySkip
      transportSkip).ok = true ∧
    ((commitOrder noFail storeLast infoC8 [⟨3, "P3", 2, 20, 40⟩] paySkip
      transportSkip).store.products.map (fun p => p.stock_quantity)) = [-1] := by
  decide

/-- C3 counterexample: the claim says the commit-time deduction fails with
`InsufficientStockError` when the requested quantity exceeds current
stock.  At stock 1 and quantity 5 the embedded commit raises nothing,
reports success and writes `1 - 5 = -4`. -/
theorem deduct_no_stock_check_cex_c3 :
    p4.stock_quantity < ((5 : Nat) : Int) ∧
    (commitOrder noFail storeOne infoC8 [⟨4, "P4", 5, 10, 50⟩] paySkip
      transportSkip).ok = true ∧
    ((commitOrder noFail storeOne infoC8 [⟨4, "P4", 5, 10, 50⟩] paySkip
      transportSkip).store.products.map (fun p => p.stock_quantity)) = [-4] := by
  decide

/-- C6 counterexample: the claim says addItem fails with
`ExceedsStockError` whenever the in-cart quantity plus the added quantity
exceeds stock.  With P6 at stock 5 and 4 units already in the cart, adding
3 more succeeds and leaves one line of quantity 7. -/
theorem addToCart_over_stock_cex_c6 :
    addToCart [⟨6, "P6", 4, 10, 40⟩] p6 3 10 = AddResult.ok [⟨6, "P6", 7, 10, 70⟩] ∧
    p6.stock_quantity < ((4 : Int) + 3) := by
  decide

/-- C7 counterexample: the claim says a fully successful commit clears the
cart and all step captures unconditionally.  After a successful embedded
commit the session is unchanged: the cart still holds its item and the
wizard is still at step 5. -/
theorem commit_not_cleared_cex_c7 :
    (createCompleteOrderClick noFail baseStore sessAtStep5).2.2 = true ∧
    (createCompleteOrderClick noFail baseStore sessAtStep5).2.1 = sessAtStep5 ∧
    sessAtStep5.cart ≠ [] ∧
    sessAtStep5.wizard_step = 5 := by
  decide

/-- C8: the §8 scenario.  Adding P1 (quantity 3, unit price 50) to an
empty cart and committing with payment and transport skipped creates
exactly one Order, exactly one OrderItem for P1 with quantity 3 and price
150 (the line total, 3 × 50), leaves P1's stock at 7, and creates no
Payment and no Transportation rows. -/
theorem commit_scenario_c8 :
    addToCart [] p1 3 50 = AddResult.ok [⟨1, "P1", 3, 50, 150⟩] ∧
    (commitOrder noFail baseStore infoC8 [⟨1, "P1", 3, 50, 150⟩] paySkip
      transportSkip).ok = true ∧
    (commitOrder noFail baseStore infoC8 [⟨1, "P1", 3, 50, 150⟩] paySkip
      transportSkip).store.orders = [⟨101, 1, 1, "2026-10-12", "Pending"⟩] ∧
    (commitOrder noFail baseStore infoC8 [⟨1, "P1", 3, 50, 150⟩] paySkip
      transportSkip).store.order_items = [⟨102, 101, 1, 3, 150⟩] ∧
    ((commitOrder noFail baseStore infoC8 [⟨1, "P1", 3, 50, 150⟩] paySkip
      transportSkip).store.order_items.map (fun i => i.price)) = [(3 : Int) * p1.unit_price] ∧
    (commitOrder noFail baseStore infoC8 [⟨1, "P1", 3, 50, 150⟩] paySkip
      transportSkip).store.products = [{ p1 with stock_quantity := 7 }] ∧
    (commitOrder noFail baseStore infoC8 [⟨1, "P1", 3, 50, 150⟩] paySkip
      transportSkip).store.payments = [] ∧
    (commitOrder noFail baseStore infoC8 [⟨1, "P1", 3, 50, 150⟩] paySkip
      transportSkip).store.transportation = [] := by
  decide

/-- C9 counterexample: the claim says an underlying store failure is
surfaced as a distinguishable `StoreError`, never as an ordinary success
value.  The embedded `execute_query` maps a raising operation to `[]`,
the very value a successful query over zero rows returns. -/
theorem execute_query_error_cex_c9 :
    execute_query (Except.error "connection reset" : Except String (List Product)) =
      execute_query (Except.ok ([] : List Product)) ∧
    execute_query (Except.error "connection reset" : Except String (List Product)) = [] :=
  ⟨rfl, rfl⟩

/-- C3 (amended): the commit-time stock deduction re-reads the current
stock and unconditionally writes `stock - quantity`; it never fails with
an insufficient-stock error, whatever the relation between the requested
quantity and the current stock — the loop always completes for a found
product. -/
theorem deduct_unconditional_c3 (store : Store) (oid : Nat) (item : CartItem) (p : Product)
    (hfind : store.products.find? (fun q => q.product_id == item.product_id) = some p) :
    commitItems noFail oid 0 store [item] =
      ({ store with
          order_items := store.order_items ++
            [{ order_item_id := store.next_id, order_id := oid,
               product_id := item.product_id, quantity := item.quantity,
               price := item.line_total }],
          next_id := store.next_id + 1,
          products := updateStock store.products item.product_id
            (p.stock_quantity - (item.quantity : Int)) }, true) := by
  simp [commitItems, noFail, hfind]

/-- Witness for C3's amended theorem: at P4 (stock 1) and requested
quantity 5 — more than the stock — the deduction still completes and
writes `1 - 5`. -/
theorem deduct_unconditional_c3_witness :
    commitItems noFail 777 0 storeOne [itemC3] =
      ({ storeOne with
          order_items := storeOne.order_items ++
            [{ order_item_id := storeOne.next_id, order_id := 777,
               product_id := itemC3.product_id, quantity := itemC3.quantity,
               price := itemC3.line_total }],
          next_id := storeOne.next_id + 1,
          products := updateStock storeOne.products itemC3.product_id
            (p4.stock_quantity - (itemC3.quantity : Int)) }, true) :=
  deduct_unconditional_c3 storeOne 777 itemC3 p4 rfl

/-- C4: the claim says a store with a positive-stock product makes step 2
present exactly the positive-stock products.  The step-2 query of line 695
filters `stock_quantity == 0` and `stock_quantity != 0` conjunctively, so
it returns the empty list over EVERY store, and the step reports "No
products available with stock" even when a product with stock 5 exists. -/
theorem wizard_step2_no_products_c4 :
    (∀ (s : Store), wizardStep2Products s = []) ∧
    step2Blocked storeWithStock = true ∧
    storeWithStock.products.any (fun p => (0 : Int) < p.stock_quantity) = true := by
  refine ⟨fun s => ?_, ?_, ?_⟩
  · exact filter_stock_eq_then_neq s.products
  · decide
  · decide

/-- C5: adding a product already in the cart (added quantity within stock)
bumps exactly the cart's entry for that product — quantity increased by
the added quantity, line total recomputed from the new quantity and the
entry's unit price — leaving exactly one entry for that `product_id`;
adding a product not in the cart appends a fresh entry. -/
theorem addToCart_merge_or_append_c5 (product : Product) (q : Nat) (price : Int)
    (hq : (q : Int) ≤ product.stock_quantity) :
    (∀ (l1 l2 : List CartItem) (e : CartItem),
      (∀ x ∈ l1, x.product_id ≠ product.product_id) →
      (∀ x ∈ l2, x.product_id ≠ product.product_id) →
      e.product_id = product.product_id →
      addToCart (l1 ++ e :: l2) product q price =
        AddResult.ok (l1 ++ bumpItem e q :: l2) ∧
      (bumpItem e q).quantity = e.quantity + q ∧
      (bumpItem e q).line_total = ((e.quantity + q : Nat) : Int) * (bumpItem e q).unit_price ∧
      (l1 ++ bumpItem e q :: l2).countP
        (fun x => x.product_id == product.product_id) = 1) ∧
    (∀ (cart : List CartItem),
      (∀ x ∈ cart, x.product_id ≠ product.product_id) →
      addToCart cart product q price =
        AddResult.ok (cart ++
          [{ product_id := product.product_id, name := product.name, quantity := q,
             unit_price := price, line_total := (q : Int) * price }])) := by
  constructor
  · intro l1 l2 e h1 h2 he
    have hany : (l1 ++ e :: l2).any
        (fun item => item.product_id == product.product_id) = true := by
      simp [he]
    refine ⟨?_, rfl, rfl, ?_⟩
    · simp [addToCart, hq, hany, bumpFirst_append l1 l2 e product.product_id q h1 he]
    · have hc1 : l1.countP (fun x => x.product_id == product.product_id) = 0 :=
        List.countP_eq_zero.mpr (fun x hx => by simpa using h1 x hx)
      have hc2 : l2.countP (fun x => x.product_id == product.product_id) = 0 :=
        List.countP_eq_zero.mpr (fun x hx => by simpa using h2 x hx)
      have hbe : (bumpItem e q).product_id = product.product_id := he
      simp [List.countP_append, List.countP_cons, hc1, hc2, hbe]
  · intro cart hnone
    have hany : cart.any (fun item => item.product_id == product.product_id) = false := by
      simp only [List.any_eq_false]
      intro x hx
      simpa using hnone x hx
    simp [addToCart, hq, hany]

/-- Witness for C5: adding P5 with quantity 3 to an empty cart and then
quantity 2 yields one line item of quantity 5 (not two lines), with line
total 5 × 40 = 200. -/
theorem addToCart_merge_c5_witness :
    addToCart [] p5w 3 40 = AddResult.ok [⟨5, "P5", 3, 40, 120⟩] ∧
    addToCart [⟨5, "P5", 3, 40, 120⟩] p5w 2 40 = AddResult.ok [⟨5, "P5", 5, 40, 200⟩] := by
  have h2 := addToCart_merge_or_append_c5 p5w 2 40 (by decide)
  have h3 := addToCart_merge_or_append_c5 p5w 3 40 (by decide)
  exact ⟨(h3.2 [] (by simp)).trans (by decide),
         ((h2.1 [] [] ⟨5, "P5", 3, 40, 120⟩ (by simp) (by simp) rfl).1).trans (by decide)⟩

/-- C6 (amended): the add-to-cart check compares only the quantity being
added with the product's current stock: it rejects with the
exceeds-stock error (cart unchanged) exactly when the added quantity
alone exceeds stock, and succeeds otherwise — even when the in-cart
quantity plus the added quantity exceeds stock. -/
theorem addToCart_checks_added_only_c6 (cart : List CartItem) (product : Product)
    (q : Nat) (price : Int) :
    (product.stock_quantity < (q : Int) →
      addToCart cart product q price = AddResult.exceedsStock product.stock_quantity) ∧
    ((q : Int) ≤ product.stock_quantity →
      ∃ c, addToCart cart product q price = AddResult.ok c) := by
  constructor
  · intro h
    simp [addToCart, not_le.mpr h]
  · intro h
    by_cases hc : cart.any (fun item => item.product_id == product.product_id)
    · exact ⟨bumpFirst cart product.product_id q, by simp [addToCart, h, hc]⟩
    · exact ⟨cart ++
        [{ product_id := product.product_id, name := product.name, quantity := q,
           unit_price := price, line_total := (q : Int) * price }],
        by simp [addToCart, h, hc]⟩

/-- C7 (amended): the "Create Complete Order" handler leaves every session
key untouched whatever the commit's outcome; the cart and step captures
are cleared — back to the fresh step-1 state — only by the separate
"Create Another Order" action. -/
theorem clear_only_on_next_click_c7 :
    (∀ (fs : FailSpec) (store : Store) (sess : WizardSession),
      (createCompleteOrderClick fs store sess).2.1 = sess) ∧
    (∀ (sess : WizardSession), createAnotherOrderClick sess = freshSession) := by
  refine ⟨fun fs store sess => ?_, fun sess => rfl⟩
  obtain ⟨step, oinfo, cart, pinfo, tinfo⟩ := sess
  cases oinfo <;> cases pinfo <;> cases tinfo <;> rfl

/-- C9 (amended): `execute_query` catches any underlying failure and
returns the empty list — the very value a successful query over zero rows
returns — so the caller cannot distinguish the two outcomes from the
result; no store-error value is ever surfaced. -/
theorem execute_query_swallows_failures_c9 :
    (∀ (e : String),
      execute_query (Except.error e : Except String (List Product)) = []) ∧
    (∀ (rows : List Product),
      execute_query (Except.ok rows : Except String (List Product)) = rows) :=
  ⟨fun _ => rfl, fun _ => rfl⟩

/-- C10: `check_permissions` returns false for every required role when no
user is logged in; for a logged-in user it returns true exactly when the
required role being "Manager" implies the user's role is "Manager" — so
"Manager" is the only role the check ever gates on, and any other
required role (including "Staff" or none) passes for every user. -/
theorem check_permissions_gates_only_manager_c10 :
    (∀ (req : Option String), check_permissions none req = false) ∧
    (∀ (role : String) (req : Option String),
      (check_permissions (some role) req = true ↔
        (req = some "Manager" → role = "Manager"))) := by
  refine ⟨fun req => rfl, fun role req => ?_⟩
  cases req with
  | none => simp [check_permissions]
  | some r =>
    by_cases hr : r = "Manager"
    · by_cases hrole : role = "Manager"
      · simp [check_permissions, hr, hrole]
      · simp [check_permissions, hr, hrole]
    · simp [check_permissions, hr]

end Shop
